import Mathlib

/-!
Shallow embedding of the `goprof` package (`profiler.go`).

The package is a global session guard around Go's runtime profiling
primitives.  We embed it as explicit state passing:

* `ProfilerState` mirrors the `profiler` struct (two timestamps and four
  file-handle fields).  Go's `time.Time` zero value is modelled as the
  natural number `0`; `time.Now` is a strictly increasing positive clock
  carried in the `World`, so a recorded timestamp is never `0`.
* File handles are natural numbers allocated by the modelled OS; the
  `World` tracks which handles are currently open (`os.Create` opens a
  fresh handle with create-or-truncate semantics, a successful `Close`
  removes it).
* Every external, fallible operation (`os.Create`,
  `pprof.StartCPUProfile`, `trace.Start`, the block-profile `WriteTo`,
  `pprof.WriteHeapProfile`, `(*os.File).Close`) is decided by an
  `Oracle` supplying its error outcome; an `Event` trace records every
  external call the code performs, in order, so ordering and
  abort-on-first-failure properties are statements about the trace.
* The argument `f` of `Run` is modelled as the opaque `Event.work`: the
  profiler's own state is global and `f` is an arbitrary client
  function, so its only observable here is that it was invoked.
-/

namespace Goprof

/-- Errors returned by the package: the two sentinel errors
`ErrAlreadyStarted` and `ErrNotStarted` declared in `profiler.go`, and
`sys e` for an underlying I/O or profiling-primitive error propagated
from an external call (the payload is an opaque code chosen by the
oracle). -/
inductive Err where
  | alreadyStarted
  | notStarted
  | sys (code : Nat)
  deriving DecidableEq, Repr

/-- `cpuName` from profiler.go: `fmt.Sprintf("%s.cpu.pprof", name)`. -/
def cpuName (name : String) : String := name ++ ".cpu.pprof"

/-- `blockName` from profiler.go: `fmt.Sprintf("%s.block.prof", name)`. -/
def blockName (name : String) : String := name ++ ".block.prof"

/-- `traceName` from profiler.go: `fmt.Sprintf("%s.trace.out", name)`. -/
def traceName (name : String) : String := name ++ ".trace.out"

/-- `heapName` from profiler.go: `fmt.Sprintf("%s.heap.prof", name)`. -/
def heapName (name : String) : String := name ++ ".heap.prof"

/-- The `profiler` struct: `start`/`end` timestamps (`0` = Go's zero
`time.Time`) and the four report file handles (`none` = nil pointer). -/
structure ProfilerState where
  start : Nat
  «end» : Nat
  cpu   : Option Nat
  block : Option Nat
  trace : Option Nat
  heap  : Option Nat
  deriving DecidableEq, Repr

/-- `(*profiler).started` from profiler.go:
`return !p.start.IsZero() && !p.end.IsZero()`. -/
def ProfilerState.started (p : ProfilerState) : Bool :=
  !(p.start == 0) && !(p.«end» == 0)

/-- `(*profiler).duration`: `p.end.Sub(p.start)` (a signed duration). -/
def ProfilerState.duration (p : ProfilerState) : Int :=
  (p.«end» : Int) - (p.start : Int)

deriving instance DecidableEq for Except

/-- One external call performed by the code, recorded in program order.
Each constructor carries the arguments visible at the call site and the
outcome the oracle chose (`none`/`Except.ok` = success). -/
inductive Event where
  | osCreate (name : String) (res : Except Nat Nat)
  | startCPUProfile (f : Option Nat) (res : Option Nat)
  | traceStartEv (f : Option Nat) (res : Option Nat)
  | setBlockProfileRate (rate : Int)
  | timeNow (t : Nat)
  | stopCPUProfile
  | traceStopEv
  | blockWriteTo (f : Option Nat) (res : Option Nat)
  | writeHeapProfile (f : Option Nat) (res : Option Nat)
  | fileCloseEv (f : Option Nat) (res : Option Nat)
  | work
  deriving DecidableEq, Repr

/-- The modelled outside world: the clock backing `time.Now`, the next
fresh file handle, and the set (list) of currently open handles. -/
structure World where
  clock      : Nat
  nextHandle : Nat
  openFiles  : List Nat
  deriving DecidableEq, Repr

/-- Full execution state: the global `p profiler` variable, the world,
and the trace of external calls made so far. -/
structure S where
  p   : ProfilerState
  w   : World
  evs : List Event
  deriving DecidableEq, Repr

/-- Append one event to the trace. -/
def S.log (s : S) (e : Event) : S := { s with evs := s.evs ++ [e] }

/-- `time.Now()`: tick the clock and return the new (positive) value. -/
def S.timeNow (s : S) : Nat × S :=
  (s.w.clock + 1,
   { s with w := { s.w with clock := s.w.clock + 1 },
            evs := s.evs ++ [Event.timeNow (s.w.clock + 1)] })

/-- Outcomes of the external fallible operations, one field per call
site: `none` means the call succeeds, `some e` that it fails with
underlying error code `e`.  `createErr` is keyed by file name and
`closeErr` by the handle being closed. -/
structure Oracle where
  createErr          : String → Option Nat
  startCPUProfileErr : Option Nat
  traceStartErr      : Option Nat
  blockWriteErr      : Option Nat
  heapWriteErr       : Option Nat
  closeErr           : Option Nat → Option Nat

/-- `os.Create(name)`: create-or-truncate the named file.  On success a
fresh handle is allocated and becomes open. -/
def osCreate (o : Oracle) (name : String) (s : S) : Except Nat Nat × S :=
  match o.createErr name with
  | some e => (Except.error e, s.log (Event.osCreate name (Except.error e)))
  | none =>
      (Except.ok s.w.nextHandle,
       { s with
         w := { s.w with
                nextHandle := s.w.nextHandle + 1,
                openFiles := s.w.openFiles ++ [s.w.nextHandle] },
         evs := s.evs ++ [Event.osCreate name (Except.ok s.w.nextHandle)] })

/-- `(*os.File).Close()`: on success the handle is no longer open. -/
def fileClose (o : Oracle) (f : Option Nat) (s : S) : Option Nat × S :=
  match o.closeErr f with
  | some e => (some e, s.log (Event.fileCloseEv f (some e)))
  | none =>
      (none,
       { s with
         w := { s.w with
                openFiles := s.w.openFiles.filter (fun h => !(f == some h)) },
         evs := s.evs ++ [Event.fileCloseEv f none] })

/-- `pprof.StartCPUProfile(p.cpu)`. -/
def startCPUProfile (o : Oracle) (f : Option Nat) (s : S) : Option Nat × S :=
  (o.startCPUProfileErr, s.log (Event.startCPUProfile f o.startCPUProfileErr))

/-- `trace.Start(p.trace)`. -/
def traceStart (o : Oracle) (f : Option Nat) (s : S) : Option Nat × S :=
  (o.traceStartErr, s.log (Event.traceStartEv f o.traceStartErr))

/-- `pprof.Lookup("block").WriteTo(p.block, 0)`. -/
def blockWriteTo (o : Oracle) (f : Option Nat) (s : S) : Option Nat × S :=
  (o.blockWriteErr, s.log (Event.blockWriteTo f o.blockWriteErr))

/-- `pprof.WriteHeapProfile(p.heap)`. -/
def writeHeapProfile (o : Oracle) (f : Option Nat) (s : S) : Option Nat × S :=
  (o.heapWriteErr, s.log (Event.writeHeapProfile f o.heapWriteErr))

/-- `runtime.SetBlockProfileRate(r)` (infallible). -/
def setBlockProfileRate (r : Int) (s : S) : S :=
  s.log (Event.setBlockProfileRate r)

/-- `setupFiles` from profiler.go: create the four report files in
order cpu, block, trace, heap, storing each handle into the global
struct as soon as it is obtained, and returning the first create error
without attempting the rest. -/
def setupFiles (o : Oracle) (name : String) (s : S) : Option Nat × S :=
  match osCreate o (cpuName name) s with
  | (Except.error e, s) => (some e, s)
  | (Except.ok cpu, s) =>
    let s := { s with p := { s.p with cpu := some cpu } }
    match osCreate o (blockName name) s with
    | (Except.error e, s) => (some e, s)
    | (Except.ok block, s) =>
      let s := { s with p := { s.p with block := some block } }
      match osCreate o (traceName name) s with
      | (Except.error e, s) => (some e, s)
      | (Except.ok tr, s) =>
        let s := { s with p := { s.p with trace := some tr } }
        match osCreate o (heapName name) s with
        | (Except.error e, s) => (some e, s)
        | (Except.ok heap, s) =>
          (none, { s with p := { s.p with heap := some heap } })

/-- `cleanupFiles` from profiler.go: close handles in order cpu, block,
trace, heap, returning the first close error without attempting the
rest. -/
def cleanupFiles (o : Oracle) (s : S) : Option Nat × S :=
  match fileClose o s.p.cpu s with
  | (some e, s) => (some e, s)
  | (none, s) =>
    match fileClose o s.p.block s with
    | (some e, s) => (some e, s)
    | (none, s) =>
      match fileClose o s.p.trace s with
      | (some e, s) => (some e, s)
      | (none, s) => fileClose o s.p.heap s

/-- `Start` from profiler.go.  Guard, empty-name timestamp substitution
(`fmt.Sprintf("goprof-%d", time.Now().UnixNano())`, modelled as
`"goprof-" ++ toString` of the clock tick), file setup, CPU profile
start, trace start, block-profile rate, and finally `p.start =
time.Now()`. -/
def Start (o : Oracle) (name : String) (s : S) : Option Err × S :=
  if s.p.started then (some Err.alreadyStarted, s)
  else
    let (name, s) :=
      if name = "" then
        let (t, s) := s.timeNow
        ("goprof-" ++ toString t, s)
      else (name, s)
    match setupFiles o name s with
    | (some e, s) => (some (Err.sys e), s)
    | (none, s) =>
      match startCPUProfile o s.p.cpu s with
      | (some e, s) => (some (Err.sys e), s)
      | (none, s) =>
        match traceStart o s.p.trace s with
        | (some e, s) => (some (Err.sys e), s)
        | (none, s) =>
          let s := setBlockProfileRate 1 s
          let (t, s) := s.timeNow
          (none, { s with p := { s.p with start := t } })

/-- `Stop` from profiler.go.  Guard, `p.end = time.Now()`, stop CPU
sampling, stop tracing, write the block snapshot, write the heap
snapshot, close the four files. -/
def Stop (o : Oracle) (s : S) : Option Err × S :=
  if !s.p.started then (some Err.notStarted, s)
  else
    let (t, s) := s.timeNow
    let s := { s with p := { s.p with «end» := t } }
    let s := s.log Event.stopCPUProfile
    let s := s.log Event.traceStopEv
    match blockWriteTo o s.p.block s with
    | (some e, s) => (some (Err.sys e), s)
    | (none, s) =>
      match writeHeapProfile o s.p.heap s with
      | (some e, s) => (some (Err.sys e), s)
      | (none, s) =>
        match cleanupFiles o s with
        | (some e, s) => (some (Err.sys e), s)
        | (none, s) => (none, s)

/-- `Run` from profiler.go: `Start`, then `f()` (the `work` event),
then `Stop`. -/
def Run (o : Oracle) (name : String) (s : S) : Option Err × S :=
  match Start o name s with
  | (some e, s) => (some e, s)
  | (none, s) => Stop o (s.log Event.work)

/-- The process-start state: zero-valued `profiler` struct, clock at 0,
no files open. -/
def S0 : S :=
  { p := { start := 0, «end» := 0, cpu := none, block := none,
           trace := none, heap := none },
    w := { clock := 0, nextHandle := 1, openFiles := [] },
    evs := [] }

/-- The oracle under which every external call succeeds. -/
def oracleOK : Oracle :=
  { createErr := fun _ => none,
    startCPUProfileErr := none,
    traceStartErr := none,
    blockWriteErr := none,
    heapWriteErr := none,
    closeErr := fun _ => none }

/-- An oracle under which exactly the create of `a.block.prof` fails
(with error code 7) and every other external call succeeds. -/
def oracleBlockFail : Oracle :=
  { oracleOK with
    createErr := fun n => if n = blockName "a" then some 7 else none }

/-- An oracle under which exactly the close of handle 2 fails (with
error code 9) and every other external call succeeds. -/
def oracleCloseBlockFail : Oracle :=
  { oracleOK with
    closeErr := fun f => if f = some 2 then some 9 else none }

/-- Recognizer for the `work` event. -/
def isWork : Event → Bool
  | Event.work => true
  | _ => false

/-- Number of `work` events (invocations of `Run`'s function argument)
in a trace. -/
def workCount (l : List Event) : Nat := l.countP isWork

/-- Names of the files whose creation was attempted, in order. -/
def createdNames : List Event → List String
  | [] => []
  | Event.osCreate n _ :: rest => n :: createdNames rest
  | _ :: rest => createdNames rest

/-- A concrete state with both timestamps set (the Closed shape) and
the four sinks assigned, as left behind by a completed session. -/
def closedS : S :=
  { p := { start := 1, «end» := 2, cpu := some 1, block := some 2,
           trace := some 3, heap := some 4 },
    w := { clock := 2, nextHandle := 5, openFiles := [1, 2, 3, 4] },
    evs := [] }

/-- The state right after a successful `Start "a"` from process start:
`start` is set, `end` is still zero, all four sinks are open. -/
def activeS : S := (Start oracleOK "a" S0).2

/-- `workCount` distributes over append. -/
theorem workCount_append (l1 l2 : List Event) :
    workCount (l1 ++ l2) = workCount l1 + workCount l2 := by
  simp [workCount, List.countP_append]

/-- `createdNames` distributes over append. -/
theorem createdNames_append (l1 l2 : List Event) :
    createdNames (l1 ++ l2) = createdNames l1 ++ createdNames l2 := by
  induction l1 with
  | nil => simp [createdNames]
  | cons a t ih => cases a <;> simp [createdNames, ih]

/-- Helper: with a non-empty name, `Start` behaves from the resolved
name directly; with an empty name it first ticks the clock for the
substituted label.  This lemma reduces the empty-name case to the
non-empty one. -/
theorem Start_empty_name (o : Oracle) (s : S) (hg : s.p.started = false) :
    Start o "" s
      = Start o ("goprof-" ++ toString (s.w.clock + 1)) (s.timeNow).2 := by
  have hne : ¬ ("goprof-" ++ toString (s.w.clock + 1)) = "" := by
    simp [String.ext_iff, String.data_append]
  simp [Start, S.timeNow, hg, hne]

/-- Helper: first sink open (`os.Create` of the cpu file) fails:
`Start` returns the underlying error having attempted nothing else. -/
theorem Start_cpuCreate_fails (o : Oracle) (name : String) (s : S) (e : Nat)
    (hg : s.p.started = false) (hnm : name ≠ "")
    (h1 : o.createErr (cpuName name) = some e) :
    Start o name s
      = (some (Err.sys e),
         s.log (Event.osCreate (cpuName name) (Except.error e))) := by
  simp [Start, setupFiles, osCreate, S.log, hg, hnm, h1]

/-- Helper: second sink open (block file) fails: the cpu sink stays
open and assigned, the remaining creates are not attempted. -/
theorem Start_blockCreate_fails (o : Oracle) (name : String) (s : S) (e : Nat)
    (hg : s.p.started = false) (hnm : name ≠ "")
    (h1 : o.createErr (cpuName name) = none)
    (h2 : o.createErr (blockName name) = some e) :
    Start o name s
      = (some (Err.sys e),
         { s with
           p := { s.p with cpu := some s.w.nextHandle },
           w := { s.w with
                  nextHandle := s.w.nextHandle + 1,
                  openFiles := s.w.openFiles ++ [s.w.nextHandle] },
           evs := s.evs
             ++ [Event.osCreate (cpuName name) (Except.ok s.w.nextHandle),
                 Event.osCreate (blockName name) (Except.error e)] }) := by
  simp [Start, setupFiles, osCreate, S.log, hg, hnm, h1, h2]

/-- Helper: third sink open (trace file) fails: cpu and block sinks
stay open and assigned, the heap create is not attempted. -/
theorem Start_traceCreate_fails (o : Oracle) (name : String) (s : S) (e : Nat)
    (hg : s.p.started = false) (hnm : name ≠ "")
    (h1 : o.createErr (cpuName name) = none)
    (h2 : o.createErr (blockName name) = none)
    (h3 : o.createErr (traceName name) = some e) :
    Start o name s
      = (some (Err.sys e),
         { s with
           p := { s.p with
                  cpu := some s.w.nextHandle,
                  block := some (s.w.nextHandle + 1) },
           w := { s.w with
                  nextHandle := s.w.nextHandle + 2,
                  openFiles := s.w.openFiles
                    ++ [s.w.nextHandle, s.w.nextHandle + 1] },
           evs := s.evs
             ++ [Event.osCreate (cpuName name) (Except.ok s.w.nextHandle),
                 Event.osCreate (blockName name) (Except.ok (s.w.nextHandle + 1)),
                 Event.osCreate (traceName name) (Except.error e)] }) := by
  simp [Start, setupFiles, osCreate, S.log, hg, hnm, h1, h2, h3]

/-- Helper: fourth sink open (heap file) fails: cpu, block and trace
sinks stay open and assigned. -/
theorem Start_heapCreate_fails (o : Oracle) (name : String) (s : S) (e : Nat)
    (hg : s.p.started = false) (hnm : name ≠ "")
    (h1 : o.createErr (cpuName name) = none)
    (h2 : o.createErr (blockName name) = none)
    (h3 : o.createErr (traceName name) = none)
    (h4 : o.createErr (heapName name) = some e) :
    Start o name s
      = (some (Err.sys e),
         { s with
           p := { s.p with
                  cpu := some s.w.nextHandle,
                  block := some (s.w.nextHandle + 1),
                  trace := some (s.w.nextHandle + 2) },
           w := { s.w with
                  nextHandle := s.w.nextHandle + 3,
                  openFiles := s.w.openFiles
                    ++ [s.w.nextHandle, s.w.nextHandle + 1,
                        s.w.nextHandle + 2] },
           evs := s.evs
             ++ [Event.osCreate (cpuName name) (Except.ok s.w.nextHandle),
                 Event.osCreate (blockName name) (Except.ok (s.w.nextHandle + 1)),
                 Event.osCreate (traceName name) (Except.ok (s.w.nextHandle + 2)),
                 Event.osCreate (heapName name) (Except.error e)] }) := by
  simp [Start, setupFiles, osCreate, S.log, hg, hnm, h1, h2, h3, h4]

/-- Helper: `pprof.StartCPUProfile` fails after all four creates
succeeded: the error propagates, `start` stays unset. -/
theorem Start_cpuProfile_fails (o : Oracle) (name : String) (s : S) (e : Nat)
    (hg : s.p.started = false) (hnm : name ≠ "")
    (h1 : o.createErr (cpuName name) = none)
    (h2 : o.createErr (blockName name) = none)
    (h3 : o.createErr (traceName name) = none)
    (h4 : o.createErr (heapName name) = none)
    (h5 : o.startCPUProfileErr = some e) :
    Start o name s
      = (some (Err.sys e),
         { s with
           p := { s.p with
                  cpu := some s.w.nextHandle,
                  block := some (s.w.nextHandle + 1),
                  trace := some (s.w.nextHandle + 2),
                  heap := some (s.w.nextHandle + 3) },
           w := { s.w with
                  nextHandle := s.w.nextHandle + 4,
                  openFiles := s.w.openFiles
                    ++ [s.w.nextHandle, s.w.nextHandle + 1,
                        s.w.nextHandle + 2, s.w.nextHandle + 3] },
           evs := s.evs
             ++ [Event.osCreate (cpuName name) (Except.ok s.w.nextHandle),
                 Event.osCreate (blockName name) (Except.ok (s.w.nextHandle + 1)),
                 Event.osCreate (traceName name) (Except.ok (s.w.nextHandle + 2)),
                 Event.osCreate (heapName name) (Except.ok (s.w.nextHandle + 3)),
                 Event.startCPUProfile (some s.w.nextHandle) (some e)] }) := by
  simp [Start, setupFiles, osCreate, startCPUProfile, S.log,
        hg, hnm, h1, h2, h3, h4, h5]

/-- Helper: `trace.Start` fails after the creates and the CPU profile
start succeeded: the error propagates, `start` stays unset. -/
theorem Start_traceStart_fails (o : Oracle) (name : String) (s : S) (e : Nat)
    (hg : s.p.started = false) (hnm : name ≠ "")
    (h1 : o.createErr (cpuName name) = none)
    (h2 : o.createErr (blockName name) = none)
    (h3 : o.createErr (traceName name) = none)
    (h4 : o.createErr (heapName name) = none)
    (h5 : o.startCPUProfileErr = none)
    (h6 : o.traceStartErr = some e) :
    Start o name s
      = (some (Err.sys e),
         { s with
           p := { s.p with
                  cpu := some s.w.nextHandle,
                  block := some (s.w.nextHandle + 1),
                  trace := some (s.w.nextHandle + 2),
                  heap := some (s.w.nextHandle + 3) },
           w := { s.w with
                  nextHandle := s.w.nextHandle + 4,
                  openFiles := s.w.openFiles
                    ++ [s.w.nextHandle, s.w.nextHandle + 1,
                        s.w.nextHandle + 2, s.w.nextHandle + 3] },
           evs := s.evs
             ++ [Event.osCreate (cpuName name) (Except.ok s.w.nextHandle),
                 Event.osCreate (blockName name) (Except.ok (s.w.nextHandle + 1)),
                 Event.osCreate (traceName name) (Except.ok (s.w.nextHandle + 2)),
                 Event.osCreate (heapName name) (Except.ok (s.w.nextHandle + 3)),
                 Event.startCPUProfile (some s.w.nextHandle) none,
                 Event.traceStartEv (some (s.w.nextHandle + 2)) (some e)] }) := by
  simp [Start, setupFiles, osCreate, startCPUProfile, traceStart, S.log,
        hg, hnm, h1, h2, h3, h4, h5, h6]

/-- Helper: all sink opens and primitive starts succeed: `Start`
returns success with all four sinks assigned and open, and records
`start` from the final clock tick. -/
theorem Start_all_ok (o : Oracle) (name : String) (s : S)
    (hg : s.p.started = false) (hnm : name ≠ "")
    (h1 : o.createErr (cpuName name) = none)
    (h2 : o.createErr (blockName name) = none)
    (h3 : o.createErr (traceName name) = none)
    (h4 : o.createErr (heapName name) = none)
    (h5 : o.startCPUProfileErr = none)
    (h6 : o.traceStartErr = none) :
    Start o name s
      = (none,
         { s with
           p := { s.p with
                  cpu := some s.w.nextHandle,
                  block := some (s.w.nextHandle + 1),
                  trace := some (s.w.nextHandle + 2),
                  heap := some (s.w.nextHandle + 3),
                  start := s.w.clock + 1 },
           w := { s.w with
                  clock := s.w.clock + 1,
                  nextHandle := s.w.nextHandle + 4,
                  openFiles := s.w.openFiles
                    ++ [s.w.nextHandle, s.w.nextHandle + 1,
                        s.w.nextHandle + 2, s.w.nextHandle + 3] },
           evs := s.evs
             ++ [Event.osCreate (cpuName name) (Except.ok s.w.nextHandle),
                 Event.osCreate (blockName name) (Except.ok (s.w.nextHandle + 1)),
                 Event.osCreate (traceName name) (Except.ok (s.w.nextHandle + 2)),
                 Event.osCreate (heapName name) (Except.ok (s.w.nextHandle + 3)),
                 Event.startCPUProfile (some s.w.nextHandle) none,
                 Event.traceStartEv (some (s.w.nextHandle + 2)) none,
                 Event.setBlockProfileRate 1,
                 Event.timeNow (s.w.clock + 1)] }) := by
  simp [Start, setupFiles, osCreate, startCPUProfile, traceStart,
        setBlockProfileRate, S.timeNow, S.log, hg, hnm, h1, h2, h3, h4, h5, h6]

/-- Helper: consolidated behavior of `Start` for a non-empty name and
a passing guard: the `end` timestamp is never touched, no `work` event
is logged, `start` is unchanged on any failure, and on success `start`
is set, non-zero, from the clock tick logged as the very last event. -/
theorem Start_shape_nonempty (o : Oracle) (name : String) (s : S)
    (hg : s.p.started = false) (hnm : name ≠ "") :
    (Start o name s).2.p.«end» = s.p.«end» ∧
    workCount (Start o name s).2.evs = workCount s.evs ∧
    ((Start o name s).1 ≠ none → (Start o name s).2.p.start = s.p.start) ∧
    ((Start o name s).1 = none →
      (Start o name s).2.p.start ≠ 0 ∧
      ∃ t pre, (Start o name s).2.evs = s.evs ++ pre ++ [Event.timeNow t] ∧
        (Start o name s).2.p.start = t) := by
  cases h1 : o.createErr (cpuName name) with
  | some e =>
      rw [Start_cpuCreate_fails o name s e hg hnm h1]
      simp [S.log, workCount_append, workCount, List.countP_cons,
            List.countP_nil, isWork]
  | none =>
  cases h2 : o.createErr (blockName name) with
  | some e =>
      rw [Start_blockCreate_fails o name s e hg hnm h1 h2]
      simp [workCount_append, workCount, List.countP_cons,
            List.countP_nil, isWork]
  | none =>
  cases h3 : o.createErr (traceName name) with
  | some e =>
      rw [Start_traceCreate_fails o name s e hg hnm h1 h2 h3]
      simp [workCount_append, workCount, List.countP_cons,
            List.countP_nil, isWork]
  | none =>
  cases h4 : o.createErr (heapName name) with
  | some e =>
      rw [Start_heapCreate_fails o name s e hg hnm h1 h2 h3 h4]
      simp [workCount_append, workCount, List.countP_cons,
            List.countP_nil, isWork]
  | none =>
  cases h5 : o.startCPUProfileErr with
  | some e =>
      rw [Start_cpuProfile_fails o name s e hg hnm h1 h2 h3 h4 h5]
      simp [workCount_append, workCount, List.countP_cons,
            List.countP_nil, isWork]
  | none =>
  cases h6 : o.traceStartErr with
  | some e =>
      rw [Start_traceStart_fails o name s e hg hnm h1 h2 h3 h4 h5 h6]
      simp [workCount_append, workCount, List.countP_cons,
            List.countP_nil, isWork]
  | none =>
      rw [Start_all_ok o name s hg hnm h1 h2 h3 h4 h5 h6]
      refine ⟨rfl, ?_, ?_, ?_⟩
      · simp [workCount_append, workCount, List.countP_cons,
              List.countP_nil, isWork]
      · intro h; simp at h
      · intro _
        refine ⟨by simp, s.w.clock + 1,
          [Event.osCreate (cpuName name) (Except.ok s.w.nextHandle),
           Event.osCreate (blockName name) (Except.ok (s.w.nextHandle + 1)),
           Event.osCreate (traceName name) (Except.ok (s.w.nextHandle + 2)),
           Event.osCreate (heapName name) (Except.ok (s.w.nextHandle + 3)),
           Event.startCPUProfile (some s.w.nextHandle) none,
           Event.traceStartEv (some (s.w.nextHandle + 2)) none,
           Event.setBlockProfileRate 1], by simp, rfl⟩

/-- Helper: `Start_shape_nonempty` extended to every name (including
the empty one, via the timestamp label substitution) and every state
(including a failing guard, where nothing changes at all). -/
theorem Start_shape_all (o : Oracle) (name : String) (s : S) :
    (Start o name s).2.p.«end» = s.p.«end» ∧
    workCount (Start o name s).2.evs = workCount s.evs ∧
    ((Start o name s).1 ≠ none → (Start o name s).2.p.start = s.p.start) ∧
    ((Start o name s).1 = none →
      (Start o name s).2.p.start ≠ 0 ∧
      ∃ t pre, (Start o name s).2.evs = s.evs ++ pre ++ [Event.timeNow t] ∧
        (Start o name s).2.p.start = t) := by
  by_cases hg : s.p.started = true
  · simp [Start, hg]
  · have hg' : s.p.started = false := by revert hg; cases s.p.started <;> simp
    rcases eq_or_ne name "" with hnm | hnm
    · subst hnm
      rw [Start_empty_name o s hg']
      have hne : ("goprof-" ++ toString (s.w.clock + 1)) ≠ "" := by
        simp [String.ext_iff, String.data_append]
      have hg2 : (s.timeNow).2.p.started = false := hg'
      obtain ⟨he, hw, hf, hsucc⟩ :=
        Start_shape_nonempty o ("goprof-" ++ toString (s.w.clock + 1))
          (s.timeNow).2 hg2 hne
      refine ⟨?_, ?_, ?_, ?_⟩
      · rw [he]; simp [S.timeNow]
      · rw [hw]
        simp [S.timeNow, workCount_append, workCount, List.countP_cons,
              List.countP_nil, isWork]
      · intro h; rw [hf h]; simp [S.timeNow]
      · intro h
        obtain ⟨h0, t, pre, hevs, hst⟩ := hsucc h
        refine ⟨h0, t, Event.timeNow (s.w.clock + 1) :: pre, ?_, hst⟩
        rw [hevs]; simp [S.timeNow]
    · exact Start_shape_nonempty o name s hg' hnm

/-- Helper: when the guard passes (`started()` true), `Stop` returns
either success or a propagated external error (never a sentinel), sets
`end` to the fresh clock tick as its first step, and leaves `start`
alone. -/
theorem Stop_started_shape (o : Oracle) (s : S) (hs : s.p.started = true) :
    ((Stop o s).1 = none ∨ ∃ e, (Stop o s).1 = some (Err.sys e)) ∧
    (Stop o s).2.p.«end» = s.w.clock + 1 ∧
    (Stop o s).2.p.start = s.p.start ∧
    workCount (Stop o s).2.evs = workCount s.evs ∧
    ∃ rest, (Stop o s).2.evs = s.evs ++ Event.timeNow (s.w.clock + 1) :: rest := by
  cases hb : o.blockWriteErr with
  | some e =>
      simp [Stop, hs, S.timeNow, S.log, workCount, List.countP_append,
                    List.countP_cons, List.countP_nil, isWork, blockWriteTo, hb]
  | none =>
      cases hh : o.heapWriteErr with
      | some e =>
          simp [Stop, hs, S.timeNow, S.log, workCount, List.countP_append,
                    List.countP_cons, List.countP_nil, isWork, blockWriteTo, writeHeapProfile, hb, hh]
      | none =>
          cases hc1 : o.closeErr s.p.cpu with
          | some e =>
              simp [Stop, hs, S.timeNow, S.log, workCount, List.countP_append,
                    List.countP_cons, List.countP_nil, isWork, blockWriteTo, writeHeapProfile,
                    cleanupFiles, fileClose, hb, hh, hc1]
          | none =>
              cases hc2 : o.closeErr s.p.block with
              | some e =>
                  simp [Stop, hs, S.timeNow, S.log, workCount, List.countP_append,
                    List.countP_cons, List.countP_nil, isWork, blockWriteTo, writeHeapProfile,
                        cleanupFiles, fileClose, hb, hh, hc1, hc2]
              | none =>
                  cases hc3 : o.closeErr s.p.trace with
                  | some e =>
                      simp [Stop, hs, S.timeNow, S.log, workCount, List.countP_append,
                    List.countP_cons, List.countP_nil, isWork, blockWriteTo, writeHeapProfile,
                            cleanupFiles, fileClose, hb, hh, hc1, hc2, hc3]
                  | none =>
                      cases hc4 : o.closeErr s.p.heap with
                      | some e =>
                          simp [Stop, hs, S.timeNow, S.log, workCount, List.countP_append,
                    List.countP_cons, List.countP_nil, isWork, blockWriteTo,
                                writeHeapProfile, cleanupFiles, fileClose,
                                hb, hh, hc1, hc2, hc3, hc4]
                      | none =>
                          simp [Stop, hs, S.timeNow, S.log, workCount, List.countP_append,
                    List.countP_cons, List.countP_nil, isWork, blockWriteTo,
                                writeHeapProfile, cleanupFiles, fileClose,
                                hb, hh, hc1, hc2, hc3, hc4]

/-- C3: calling `Stop` in the Idle state (both timestamps unset, no
`Start` ever made) returns the `NotStarted` error and changes nothing. -/
theorem Stop_idle_notStarted (o : Oracle) (s : S)
    (h1 : s.p.start = 0) (h2 : s.p.«end» = 0) :
    Stop o s = (some Err.notStarted, s) := by
  simp [Stop, ProfilerState.started, h1]

/-- Witness for C3 at the process-start state. -/
theorem Stop_idle_notStarted_witness :
    Stop oracleOK S0 = (some Err.notStarted, S0) :=
  Stop_idle_notStarted oracleOK S0 rfl rfl

/-- C10: whenever `Stop` returns the `NotStarted` error it has modified
no part of the global session state. -/
theorem Stop_notStarted_no_mutation (o : Oracle) (s : S)
    (h : (Stop o s).1 = some Err.notStarted) : (Stop o s).2 = s := by
  by_cases hs : s.p.started = true
  · rcases (Stop_started_shape o s hs).1 with h0 | ⟨e, he⟩
    · rw [h0] at h; exact absurd h (by simp)
    · rw [he] at h; exact absurd h (by simp)
  · have hs' : s.p.started = false := by
      revert hs; cases s.p.started <;> simp
    simp [Stop, hs']

/-- Witness for C10 at the process-start state. -/
theorem Stop_notStarted_no_mutation_witness : (Stop oracleOK S0).2 = S0 :=
  Stop_notStarted_no_mutation oracleOK S0 (by rfl)

/-- C2 (code behavior at the claimed scenario): from an Active state
(`start` set, `end` unset) `Stop` returns the `NotStarted` error and
performs no teardown, because `started()` requires BOTH timestamps to
be non-zero.  The spec's `Active --Stop--> Closed` transition does not
happen. -/
theorem Stop_active_returns_notStarted (o : Oracle) (s : S)
    (h1 : s.p.start ≠ 0) (h2 : s.p.«end» = 0) :
    Stop o s = (some Err.notStarted, s) := by
  simp [Stop, ProfilerState.started, h2]

/-- Witness for C2's code behavior: `Start "a"` from process start
succeeds, and the immediately following `Stop` is rejected. -/
theorem Stop_active_returns_notStarted_witness :
    Stop oracleOK activeS = (some Err.notStarted, activeS) :=
  Stop_active_returns_notStarted oracleOK activeS (by decide) (by decide)

/-- Helper: when the guard passes (`started()` false), `Start` never
returns the `AlreadyStarted` sentinel: it either succeeds or propagates
an external error. -/
theorem Start_not_started_shape (o : Oracle) (name : String) (s : S)
    (hns : s.p.started = false) :
    (Start o name s).1 = none ∨ ∃ e, (Start o name s).1 = some (Err.sys e) := by
  unfold Start
  simp only [hns, Bool.false_eq_true, if_false]
  repeat' split
  all_goals simp

/-- C1 (code behavior at the claimed scenario): from an Active state
(`start` set, `end` unset) a further `Start` is NOT rejected with
`AlreadyStarted`: the guard `started()` is false because `end` is still
zero, so the call proceeds into setup again. -/
theorem Start_active_never_alreadyStarted (o : Oracle) (name : String) (s : S)
    (h1 : s.p.start ≠ 0) (h2 : s.p.«end» = 0) :
    (Start o name s).1 ≠ some Err.alreadyStarted := by
  have hns : s.p.started = false := by simp [ProfilerState.started, h2]
  rcases Start_not_started_shape o name s hns with h0 | ⟨e, he⟩
  · rw [h0]; simp
  · rw [he]; simp

/-- Witness for C1's code behavior: after a successful `Start "a"`, a
second `Start "b"` does not return `AlreadyStarted`. -/
theorem Start_active_never_alreadyStarted_witness :
    (Start oracleOK "b" activeS).1 ≠ some Err.alreadyStarted :=
  Start_active_never_alreadyStarted oracleOK "b" activeS (by decide) (by decide)

/-- C9: from a Closed state (both timestamps set), a further `Stop` is
not rejected with `NotStarted`: it passes the guard, overwrites `end`
with the fresh clock tick (leaving `start` alone), and so changes the
reported duration. -/
theorem Stop_closed_overwrites_end (o : Oracle) (s : S)
    (h1 : s.p.start ≠ 0) (h2 : s.p.«end» ≠ 0) (h3 : s.p.«end» ≤ s.w.clock) :
    (Stop o s).1 ≠ some Err.notStarted ∧
    (Stop o s).2.p.«end» = s.w.clock + 1 ∧
    (Stop o s).2.p.start = s.p.start ∧
    (Stop o s).2.p.duration ≠ s.p.duration := by
  have hs : s.p.started = true := by
    simp [ProfilerState.started, h1, h2]
  obtain ⟨hres, hend, hstart, -⟩ := Stop_started_shape o s hs
  refine ⟨?_, hend, hstart, ?_⟩
  · rcases hres with h0 | ⟨e, he⟩
    · rw [h0]; simp
    · rw [he]; simp
  · simp only [ProfilerState.duration, hend, hstart]
    intro hcon
    omega

/-- Helper: `Stop` never logs a `work` event. -/
theorem Stop_workCount (o : Oracle) (s : S) :
    workCount (Stop o s).2.evs = workCount s.evs := by
  by_cases hs : s.p.started = true
  · exact (Stop_started_shape o s hs).2.2.2.1
  · have hs' : s.p.started = false := by revert hs; cases s.p.started <;> simp
    simp [Stop, hs']

/-- Helper: when `Start` fails, `Run` is just that failed `Start`. -/
theorem Run_eq_fail (o : Oracle) (name : String) (s : S)
    (h : (Start o name s).1 ≠ none) :
    Run o name s = Start o name s := by
  unfold Run
  rcases he : (Start o name s).1 with _ | e
  · exact absurd he h
  · have hp : Start o name s = (some e, (Start o name s).2) := by rw [← he]
    rw [hp]

/-- Helper: when `Start` succeeds, `Run` is `Stop` applied to the
post-`Start` state with the `work` invocation logged in between. -/
theorem Run_eq_ok (o : Oracle) (name : String) (s : S)
    (h : (Start o name s).1 = none) :
    Run o name s = Stop o (((Start o name s).2).log Event.work) := by
  unfold Run
  have hp : Start o name s = (none, (Start o name s).2) := by rw [← h]
  rw [hp]

/-- C4: `Run` calls `Start`; if that fails `Run` returns the failed
`Start` verbatim and `work` is never invoked (the `work` count of the
trace is unchanged).  If `Start` succeeds, `Run` invokes `work` exactly
once, strictly after the session became Active (`start` set and `end`
still unset in the state `work` sees) and strictly before `Stop` is
invoked (`Run` is exactly `Stop` of the post-`Start` state extended by
the single `work` event), and `Run` returns `Stop`'s result. -/
theorem Run_spec (o : Oracle) (name : String) (s : S)
    (h : s.p.«end» = 0) :
    ((Start o name s).1 ≠ none →
       Run o name s = Start o name s ∧
       workCount (Run o name s).2.evs = workCount s.evs) ∧
    ((Start o name s).1 = none →
       Run o name s = Stop o (((Start o name s).2).log Event.work) ∧
       (Start o name s).2.p.start ≠ 0 ∧
       (Start o name s).2.p.«end» = 0 ∧
       workCount (((Start o name s).2).log Event.work).evs
         = workCount s.evs + 1 ∧
       workCount (Run o name s).2.evs = workCount s.evs + 1) := by
  obtain ⟨hend, hwc, -, hsucc⟩ := Start_shape_all o name s
  constructor
  · intro hf
    refine ⟨Run_eq_fail o name s hf, ?_⟩
    rw [Run_eq_fail o name s hf]
    exact hwc
  · intro hok
    obtain ⟨hs0, -⟩ := hsucc hok
    have hlog : workCount (((Start o name s).2).log Event.work).evs
        = workCount s.evs + 1 := by
      simp [S.log, workCount_append, workCount, List.countP_cons,
            List.countP_nil, isWork]
      exact hwc
    refine ⟨Run_eq_ok o name s hok, hs0, ?_, hlog, ?_⟩
    · rw [hend, h]
    · rw [Run_eq_ok o name s hok, Stop_workCount o _, hlog]

/-- Witness for C4 with every external call succeeding, from the
process-start state. -/
theorem Run_spec_witness :
    ((Start oracleOK "a" S0).1 ≠ none →
       Run oracleOK "a" S0 = Start oracleOK "a" S0 ∧
       workCount (Run oracleOK "a" S0).2.evs = workCount S0.evs) ∧
    ((Start oracleOK "a" S0).1 = none →
       Run oracleOK "a" S0
         = Stop oracleOK (((Start oracleOK "a" S0).2).log Event.work) ∧
       (Start oracleOK "a" S0).2.p.start ≠ 0 ∧
       (Start oracleOK "a" S0).2.p.«end» = 0 ∧
       workCount (((Start oracleOK "a" S0).2).log Event.work).evs
         = workCount S0.evs + 1 ∧
       workCount (Run oracleOK "a" S0).2.evs = workCount S0.evs + 1) :=
  Run_spec oracleOK "a" S0 rfl

/-- C5: if one of `Start`'s four sink opens fails, `Start` aborts
without attempting the remaining creates (the create events stop at the
failing name), returns the underlying I/O error, leaves every sink
opened before the failure open (still in the open-file table, with its
handle stored in the struct), and leaves `start` unset. -/
theorem Start_sink_open_failure (o : Oracle) (name : String) (s : S) (e : Nat)
    (hg : s.p.started = false) (hnm : name ≠ "") (h0 : s.p.start = 0) :
    (o.createErr (cpuName name) = some e →
       (Start o name s).1 = some (Err.sys e) ∧
       createdNames (Start o name s).2.evs
         = createdNames s.evs ++ [cpuName name] ∧
       (Start o name s).2.w.openFiles = s.w.openFiles ∧
       (Start o name s).2.p.start = 0) ∧
    (o.createErr (cpuName name) = none →
     o.createErr (blockName name) = some e →
       (Start o name s).1 = some (Err.sys e) ∧
       createdNames (Start o name s).2.evs
         = createdNames s.evs ++ [cpuName name, blockName name] ∧
       (Start o name s).2.p.cpu = some s.w.nextHandle ∧
       (Start o name s).2.w.openFiles = s.w.openFiles ++ [s.w.nextHandle] ∧
       (Start o name s).2.p.start = 0) ∧
    (o.createErr (cpuName name) = none →
     o.createErr (blockName name) = none →
     o.createErr (traceName name) = some e →
       (Start o name s).1 = some (Err.sys e) ∧
       createdNames (Start o name s).2.evs
         = createdNames s.evs ++ [cpuName name, blockName name, traceName name] ∧
       (Start o name s).2.p.cpu = some s.w.nextHandle ∧
       (Start o name s).2.p.block = some (s.w.nextHandle + 1) ∧
       (Start o name s).2.w.openFiles
         = s.w.openFiles ++ [s.w.nextHandle, s.w.nextHandle + 1] ∧
       (Start o name s).2.p.start = 0) ∧
    (o.createErr (cpuName name) = none →
     o.createErr (blockName name) = none →
     o.createErr (traceName name) = none →
     o.createErr (heapName name) = some e →
       (Start o name s).1 = some (Err.sys e) ∧
       createdNames (Start o name s).2.evs
         = createdNames s.evs
           ++ [cpuName name, blockName name, traceName name, heapName name] ∧
       (Start o name s).2.p.cpu = some s.w.nextHandle ∧
       (Start o name s).2.p.block = some (s.w.nextHandle + 1) ∧
       (Start o name s).2.p.trace = some (s.w.nextHandle + 2) ∧
       (Start o name s).2.w.openFiles
         = s.w.openFiles
           ++ [s.w.nextHandle, s.w.nextHandle + 1, s.w.nextHandle + 2] ∧
       (Start o name s).2.p.start = 0) := by
  refine ⟨?_, ?_, ?_, ?_⟩
  · intro h1
    rw [Start_cpuCreate_fails o name s e hg hnm h1]
    simp [S.log, createdNames_append, createdNames, h0]
  · intro h1 h2
    rw [Start_blockCreate_fails o name s e hg hnm h1 h2]
    simp [createdNames_append, createdNames, h0]
  · intro h1 h2 h3
    rw [Start_traceCreate_fails o name s e hg hnm h1 h2 h3]
    simp [createdNames_append, createdNames, h0]
  · intro h1 h2 h3 h4
    rw [Start_heapCreate_fails o name s e hg hnm h1 h2 h3 h4]
    simp [createdNames_append, createdNames, h0]

/-- Witness for C5: an oracle that fails exactly the block-file create,
from the process-start state. -/
theorem Start_sink_open_failure_witness :
    (oracleBlockFail.createErr (cpuName "a") = some 7 →
       (Start oracleBlockFail "a" S0).1 = some (Err.sys 7) ∧
       createdNames (Start oracleBlockFail "a" S0).2.evs
         = createdNames S0.evs ++ [cpuName "a"] ∧
       (Start oracleBlockFail "a" S0).2.w.openFiles = S0.w.openFiles ∧
       (Start oracleBlockFail "a" S0).2.p.start = 0) ∧
    (oracleBlockFail.createErr (cpuName "a") = none →
     oracleBlockFail.createErr (blockName "a") = some 7 →
       (Start oracleBlockFail "a" S0).1 = some (Err.sys 7) ∧
       createdNames (Start oracleBlockFail "a" S0).2.evs
         = createdNames S0.evs ++ [cpuName "a", blockName "a"] ∧
       (Start oracleBlockFail "a" S0).2.p.cpu = some S0.w.nextHandle ∧
       (Start oracleBlockFail "a" S0).2.w.openFiles
         = S0.w.openFiles ++ [S0.w.nextHandle] ∧
       (Start oracleBlockFail "a" S0).2.p.start = 0) ∧
    (oracleBlockFail.createErr (cpuName "a") = none →
     oracleBlockFail.createErr (blockName "a") = none →
     oracleBlockFail.createErr (traceName "a") = some 7 →
       (Start oracleBlockFail "a" S0).1 = some (Err.sys 7) ∧
       createdNames (Start oracleBlockFail "a" S0).2.evs
         = createdNames S0.evs ++ [cpuName "a", blockName "a", traceName "a"] ∧
       (Start oracleBlockFail "a" S0).2.p.cpu = some S0.w.nextHandle ∧
       (Start oracleBlockFail "a" S0).2.p.block = some (S0.w.nextHandle + 1) ∧
       (Start oracleBlockFail "a" S0).2.w.openFiles
         = S0.w.openFiles ++ [S0.w.nextHandle, S0.w.nextHandle + 1] ∧
       (Start oracleBlockFail "a" S0).2.p.start = 0) ∧
    (oracleBlockFail.createErr (cpuName "a") = none →
     oracleBlockFail.createErr (blockName "a") = none →
     oracleBlockFail.createErr (traceName "a") = none →
     oracleBlockFail.createErr (heapName "a") = some 7 →
       (Start oracleBlockFail "a" S0).1 = some (Err.sys 7) ∧
       createdNames (Start oracleBlockFail "a" S0).2.evs
         = createdNames S0.evs
           ++ [cpuName "a", blockName "a", traceName "a", heapName "a"] ∧
       (Start oracleBlockFail "a" S0).2.p.cpu = some S0.w.nextHandle ∧
       (Start oracleBlockFail "a" S0).2.p.block = some (S0.w.nextHandle + 1) ∧
       (Start oracleBlockFail "a" S0).2.p.trace = some (S0.w.nextHandle + 2) ∧
       (Start oracleBlockFail "a" S0).2.w.openFiles
         = S0.w.openFiles
           ++ [S0.w.nextHandle, S0.w.nextHandle + 1, S0.w.nextHandle + 2] ∧
       (Start oracleBlockFail "a" S0).2.p.start = 0) :=
  Start_sink_open_failure oracleBlockFail "a" S0 7 rfl (by decide) rfl

/-- C6: `Start` leaves `start` untouched whenever it returns an error,
and on success sets it from the clock tick that is the very last logged
event (after every setup step); `Stop`, once past its guard, sets `end`
from the clock tick that is the very first logged event (before any
teardown step). -/
theorem timestamps_exclude_setup_and_teardown (o : Oracle) (name : String)
    (s : S) :
    ((Start o name s).1 ≠ none → (Start o name s).2.p.start = s.p.start) ∧
    ((Start o name s).1 = none →
       ∃ t pre, (Start o name s).2.evs = s.evs ++ pre ++ [Event.timeNow t] ∧
         (Start o name s).2.p.start = t) ∧
    (s.p.started = true →
       ∃ rest,
         (Stop o s).2.evs = s.evs ++ Event.timeNow (s.w.clock + 1) :: rest ∧
         (Stop o s).2.p.«end» = s.w.clock + 1) := by
  obtain ⟨-, -, hf, hsucc⟩ := Start_shape_all o name s
  refine ⟨hf, fun h => (hsucc h).2, fun hs => ?_⟩
  obtain ⟨-, hend, -, -, rest, hevs⟩ := Stop_started_shape o s hs
  exact ⟨rest, hevs, hend⟩

/-- Witness for C6 with every external call succeeding, from the
process-start state (the success half of the `Start` part is the
non-vacuous one). -/
theorem timestamps_exclude_setup_and_teardown_witness :
    ((Start oracleOK "a" S0).1 ≠ none →
       (Start oracleOK "a" S0).2.p.start = S0.p.start) ∧
    ((Start oracleOK "a" S0).1 = none →
       ∃ t pre,
         (Start oracleOK "a" S0).2.evs = S0.evs ++ pre ++ [Event.timeNow t] ∧
         (Start oracleOK "a" S0).2.p.start = t) ∧
    (S0.p.started = true →
       ∃ rest,
         (Stop oracleOK S0).2.evs
           = S0.evs ++ Event.timeNow (S0.w.clock + 1) :: rest ∧
         (Stop oracleOK S0).2.p.«end» = S0.w.clock + 1) :=
  timestamps_exclude_setup_and_teardown oracleOK "a" S0

/-- Helper: a successful `Start` with a non-empty name attempted
exactly the four creates, in order cpu, block, trace, heap. -/
theorem Start_createdNames_nonempty (o : Oracle) (name : String) (s : S)
    (hg : s.p.started = false) (hnm : name ≠ "")
    (hok : (Start o name s).1 = none) :
    createdNames (Start o name s).2.evs
      = createdNames s.evs
        ++ [cpuName name, blockName name, traceName name, heapName name] := by
  cases h1 : o.createErr (cpuName name) with
  | some e => rw [Start_cpuCreate_fails o name s e hg hnm h1] at hok; simp at hok
  | none =>
  cases h2 : o.createErr (blockName name) with
  | some e =>
      rw [Start_blockCreate_fails o name s e hg hnm h1 h2] at hok; simp at hok
  | none =>
  cases h3 : o.createErr (traceName name) with
  | some e =>
      rw [Start_traceCreate_fails o name s e hg hnm h1 h2 h3] at hok
      simp at hok
  | none =>
  cases h4 : o.createErr (heapName name) with
  | some e =>
      rw [Start_heapCreate_fails o name s e hg hnm h1 h2 h3 h4] at hok
      simp at hok
  | none =>
  cases h5 : o.startCPUProfileErr with
  | some e =>
      rw [Start_cpuProfile_fails o name s e hg hnm h1 h2 h3 h4 h5] at hok
      simp at hok
  | none =>
  cases h6 : o.traceStartErr with
  | some e =>
      rw [Start_traceStart_fails o name s e hg hnm h1 h2 h3 h4 h5 h6] at hok
      simp at hok
  | none =>
      rw [Start_all_ok o name s hg hnm h1 h2 h3 h4 h5 h6]
      simp [createdNames_append, createdNames]

/-- C7: a successful `Start` with non-empty label `L` creates (via
`os.Create`, i.e. create-or-truncate) exactly the four files
`L.cpu.pprof`, `L.block.prof`, `L.trace.out`, `L.heap.prof`, in that
order; with the empty label it first substitutes the timestamp-derived
label `goprof-<tick>` and derives the four names from it. -/
theorem Start_sink_names (o : Oracle) (name : String) (s : S)
    (hg : s.p.started = false) (hok : (Start o name s).1 = none) :
    (name ≠ "" →
       createdNames (Start o name s).2.evs
         = createdNames s.evs
           ++ [name ++ ".cpu.pprof", name ++ ".block.prof",
               name ++ ".trace.out", name ++ ".heap.prof"]) ∧
    (name = "" →
       createdNames (Start o name s).2.evs
         = createdNames s.evs
           ++ [cpuName ("goprof-" ++ toString (s.w.clock + 1)),
               blockName ("goprof-" ++ toString (s.w.clock + 1)),
               traceName ("goprof-" ++ toString (s.w.clock + 1)),
               heapName ("goprof-" ++ toString (s.w.clock + 1))]) := by
  constructor
  · intro hnm
    exact Start_createdNames_nonempty o name s hg hnm hok
  · intro hemp
    subst hemp
    rw [Start_empty_name o s hg] at hok ⊢
    have hne : ("goprof-" ++ toString (s.w.clock + 1)) ≠ "" := by
      simp [String.ext_iff, String.data_append]
    have hg2 : (s.timeNow).2.p.started = false := hg
    rw [Start_createdNames_nonempty o _ (s.timeNow).2 hg2 hne hok]
    simp [S.timeNow, createdNames_append, createdNames]

/-- Witness for C7 with the empty label, from the process-start state. -/
theorem Start_sink_names_witness :
    ("" ≠ "" →
       createdNames (Start oracleOK "" S0).2.evs
         = createdNames S0.evs
           ++ ["" ++ ".cpu.pprof", "" ++ ".block.prof",
               "" ++ ".trace.out", "" ++ ".heap.prof"]) ∧
    ("" = "" →
       createdNames (Start oracleOK "" S0).2.evs
         = createdNames S0.evs
           ++ [cpuName ("goprof-" ++ toString (S0.w.clock + 1)),
               blockName ("goprof-" ++ toString (S0.w.clock + 1)),
               traceName ("goprof-" ++ toString (S0.w.clock + 1)),
               heapName ("goprof-" ++ toString (S0.w.clock + 1))]) :=
  Start_sink_names oracleOK "" S0 rfl rfl

/-- C8: past its guard, `Stop` performs teardown in the fixed order
stop-CPU, stop-trace, write block snapshot, write heap snapshot, then
close cpu, block, trace, heap; on the first snapshot-write or close
failure it returns that error immediately, with the later events absent
from the trace and the subsequent sinks still open. -/
theorem Stop_teardown_order (o : Oracle) (s : S) (e : Nat)
    (hs : s.p.started = true) :
    (o.blockWriteErr = some e →
       Stop o s
         = (some (Err.sys e),
            { s with
              p := { s.p with «end» := s.w.clock + 1 },
              w := { s.w with clock := s.w.clock + 1 },
              evs := s.evs
                ++ [Event.timeNow (s.w.clock + 1), Event.stopCPUProfile,
                    Event.traceStopEv,
                    Event.blockWriteTo s.p.block (some e)] })) ∧
    (o.blockWriteErr = none → o.heapWriteErr = some e →
       Stop o s
         = (some (Err.sys e),
            { s with
              p := { s.p with «end» := s.w.clock + 1 },
              w := { s.w with clock := s.w.clock + 1 },
              evs := s.evs
                ++ [Event.timeNow (s.w.clock + 1), Event.stopCPUProfile,
                    Event.traceStopEv, Event.blockWriteTo s.p.block none,
                    Event.writeHeapProfile s.p.heap (some e)] })) ∧
    (o.blockWriteErr = none → o.heapWriteErr = none →
     o.closeErr s.p.cpu = some e →
       Stop o s
         = (some (Err.sys e),
            { s with
              p := { s.p with «end» := s.w.clock + 1 },
              w := { s.w with clock := s.w.clock + 1 },
              evs := s.evs
                ++ [Event.timeNow (s.w.clock + 1), Event.stopCPUProfile,
                    Event.traceStopEv, Event.blockWriteTo s.p.block none,
                    Event.writeHeapProfile s.p.heap none,
                    Event.fileCloseEv s.p.cpu (some e)] })) ∧
    (o.blockWriteErr = none → o.heapWriteErr = none →
     o.closeErr s.p.cpu = none → o.closeErr s.p.block = some e →
       Stop o s
         = (some (Err.sys e),
            { s with
              p := { s.p with «end» := s.w.clock + 1 },
              w := { s.w with
                     clock := s.w.clock + 1,
                     openFiles := s.w.openFiles.filter
                       (fun h => !(s.p.cpu == some h)) },
              evs := s.evs
                ++ [Event.timeNow (s.w.clock + 1), Event.stopCPUProfile,
                    Event.traceStopEv, Event.blockWriteTo s.p.block none,
                    Event.writeHeapProfile s.p.heap none,
                    Event.fileCloseEv s.p.cpu none,
                    Event.fileCloseEv s.p.block (some e)] })) ∧
    (o.blockWriteErr = none → o.heapWriteErr = none →
     o.closeErr s.p.cpu = none → o.closeErr s.p.block = none →
     o.closeErr s.p.trace = some e →
       Stop o s
         = (some (Err.sys e),
            { s with
              p := { s.p with «end» := s.w.clock + 1 },
              w := { s.w with
                     clock := s.w.clock + 1,
                     openFiles := (s.w.openFiles.filter
                         (fun h => !(s.p.cpu == some h))).filter
                       (fun h => !(s.p.block == some h)) },
              evs := s.evs
                ++ [Event.timeNow (s.w.clock + 1), Event.stopCPUProfile,
                    Event.traceStopEv, Event.blockWriteTo s.p.block none,
                    Event.writeHeapProfile s.p.heap none,
                    Event.fileCloseEv s.p.cpu none,
                    Event.fileCloseEv s.p.block none,
                    Event.fileCloseEv s.p.trace (some e)] })) ∧
    (o.blockWriteErr = none → o.heapWriteErr = none →
     o.closeErr s.p.cpu = none → o.closeErr s.p.block = none →
     o.closeErr s.p.trace = none → o.closeErr s.p.heap = some e →
       Stop o s
         = (some (Err.sys e),
            { s with
              p := { s.p with «end» := s.w.clock + 1 },
              w := { s.w with
                     clock := s.w.clock + 1,
                     openFiles := ((s.w.openFiles.filter
                           (fun h => !(s.p.cpu == some h))).filter
                         (fun h => !(s.p.block == some h))).filter
                       (fun h => !(s.p.trace == some h)) },
              evs := s.evs
                ++ [Event.timeNow (s.w.clock + 1), Event.stopCPUProfile,
                    Event.traceStopEv, Event.blockWriteTo s.p.block none,
                    Event.writeHeapProfile s.p.heap none,
                    Event.fileCloseEv s.p.cpu none,
                    Event.fileCloseEv s.p.block none,
                    Event.fileCloseEv s.p.trace none,
                    Event.fileCloseEv s.p.heap (some e)] })) ∧
    (o.blockWriteErr = none → o.heapWriteErr = none →
     o.closeErr s.p.cpu = none → o.closeErr s.p.block = none →
     o.closeErr s.p.trace = none → o.closeErr s.p.heap = none →
       Stop o s
         = (none,
            { s with
              p := { s.p with «end» := s.w.clock + 1 },
              w := { s.w with
                     clock := s.w.clock + 1,
                     openFiles := (((s.w.openFiles.filter
                             (fun h => !(s.p.cpu == some h))).filter
                           (fun h => !(s.p.block == some h))).filter
                         (fun h => !(s.p.trace == some h))).filter
                       (fun h => !(s.p.heap == some h)) },
              evs := s.evs
                ++ [Event.timeNow (s.w.clock + 1), Event.stopCPUProfile,
                    Event.traceStopEv, Event.blockWriteTo s.p.block none,
                    Event.writeHeapProfile s.p.heap none,
                    Event.fileCloseEv s.p.cpu none,
                    Event.fileCloseEv s.p.block none,
                    Event.fileCloseEv s.p.trace none,
                    Event.fileCloseEv s.p.heap none] })) := by
  refine ⟨?_, ?_, ?_, ?_, ?_, ?_, ?_⟩
  · intro hb
    simp [Stop, hs, S.timeNow, S.log, blockWriteTo, hb]
  · intro hb hh
    simp [Stop, hs, S.timeNow, S.log, blockWriteTo, writeHeapProfile, hb, hh]
  · intro hb hh hc1
    simp [Stop, hs, S.timeNow, S.log, blockWriteTo, writeHeapProfile,
          cleanupFiles, fileClose, hb, hh, hc1]
  · intro hb hh hc1 hc2
    simp [Stop, hs, S.timeNow, S.log, blockWriteTo, writeHeapProfile,
          cleanupFiles, fileClose, hb, hh, hc1, hc2]
  · intro hb hh hc1 hc2 hc3
    simp [Stop, hs, S.timeNow, S.log, blockWriteTo, writeHeapProfile,
          cleanupFiles, fileClose, hb, hh, hc1, hc2, hc3]
  · intro hb hh hc1 hc2 hc3 hc4
    simp [Stop, hs, S.timeNow, S.log, blockWriteTo, writeHeapProfile,
          cleanupFiles, fileClose, hb, hh, hc1, hc2, hc3, hc4]
  · intro hb hh hc1 hc2 hc3 hc4
    simp [Stop, hs, S.timeNow, S.log, blockWriteTo, writeHeapProfile,
          cleanupFiles, fileClose, hb, hh, hc1, hc2, hc3, hc4]

/-- Witness for C8: at the concrete Closed state, with the close of the
block sink (handle 2) failing, `Stop` stops after that close: the trace
and heap sinks (handles 3 and 4) stay open. -/
theorem Stop_teardown_order_witness :
    Stop oracleCloseBlockFail closedS
      = (some (Err.sys 9),
         { closedS with
           p := { closedS.p with «end» := closedS.w.clock + 1 },
           w := { closedS.w with
                  clock := closedS.w.clock + 1,
                  openFiles := closedS.w.openFiles.filter
                    (fun h => !(closedS.p.cpu == some h)) },
           evs := closedS.evs
             ++ [Event.timeNow (closedS.w.clock + 1), Event.stopCPUProfile,
                 Event.traceStopEv, Event.blockWriteTo closedS.p.block none,
                 Event.writeHeapProfile closedS.p.heap none,
                 Event.fileCloseEv closedS.p.cpu none,
                 Event.fileCloseEv closedS.p.block (some 9)] }) :=
  (Stop_teardown_order oracleCloseBlockFail closedS 9 rfl).2.2.2.1
    rfl rfl rfl rfl

/-- Witness for C9 at a concrete Closed state. -/
theorem Stop_closed_overwrites_end_witness :
    (Stop oracleOK closedS).1 ≠ some Err.notStarted ∧
    (Stop oracleOK closedS).2.p.«end» = closedS.w.clock + 1 ∧
    (Stop oracleOK closedS).2.p.start = closedS.p.start ∧
    (Stop oracleOK closedS).2.p.duration ≠ closedS.p.duration :=
  Stop_closed_overwrites_end oracleOK closedS (by decide) (by decide) (by decide)

end Goprof
